import Mathlib

/-!
Verification development for the finance-buddy repository.

Part 1 embeds src/finance_buddy/classification.py: the text normalization
routine clean_text, the closed category enumeration, the training-data
preparation and training entry point, the two-tier category prediction, and
the correction-feedback routine save_descriptions.

Part 2 embeds src/finance_buddy/capital_one.py, function
parse_capitalone_transactions_text: the stateful line-oriented statement
parser with its per-page invocation protocol and trailer reconciliation.

External effects (file IO, pickle, sklearn fitting, the Python re engine)
are represented by explicit parameters or by recording their inputs, as
noted at each definition.
-/

namespace FinanceBuddy

/-! ### classification.py : clean_text -/

/-- Character class of the Python regex token for word characters, restricted
to ASCII inputs as they occur in statement text. -/
def isWordChar (c : Char) : Bool :=
  c.isAlpha || c.isDigit || c = '_'

/-- Character class of the Python regex whitespace token, restricted to the
ASCII whitespace characters. -/
def isSpaceChar (c : Char) : Bool :=
  c = ' ' || c = '\t' || c = '\n' || c = '\r'

/-- Character-wise mapping over a string. -/
def mapStr (f : Char → Char) (s : String) : String :=
  String.mk (s.data.map f)

/-- Splitting a character sequence at whitespace, keeping the empty pieces
that arise between adjacent separators, as str.split with a separator does. -/
def splitChars : List Char → List Char → List (List Char)
  | [], cur => [cur.reverse]
  | c :: rest, cur =>
    if isSpaceChar c then cur.reverse :: splitChars rest []
    else splitChars rest (c :: cur)

/-- Tokens of str.split without an argument: maximal nonempty runs separated
by whitespace. -/
def splitWs (s : String) : List String :=
  ((splitChars s.data []).map String.mk).filter (fun t => !t.data.isEmpty)

/-- True when the token is a nonempty digit string. -/
def allDigits (s : String) : Bool :=
  !s.data.isEmpty && s.data.all Char.isDigit

/-- True when the token is a hash sign followed by a nonempty digit string,
the shape removed by the store-number suffix pattern. -/
def storeNumberTok (t : String) : Bool :=
  match t.data with
  | '#' :: ds => !ds.isEmpty && ds.all Char.isDigit
  | _ => false

/-- Joining tokens with single spaces. -/
def joinSp : List String → String
  | [] => ""
  | t :: rest => rest.foldl (fun acc u => acc ++ " " ++ u) t

/-- Drops the last token when it satisfies the given test and is preceded by
at least one other token. On the canonical collapsed form produced by
clean_text this implements one anchored suffix substitution of the source:
the removed suffix is the whitespace plus the final token. -/
def dropLastIf (p : String → Bool) (ts : List String) : List String :=
  match ts.getLast? with
  | some t => if ts.length ≥ 2 && p t then ts.dropLast else ts
  | none => ts

/-- Suffix tokens stripped by clean_text after the numeric patterns, in the
order the source applies them. -/
def suffixTokens : List String :=
  ["LLC", "INC", "CORP", "USA", "VA", "MD", "DC"]

/-- Embeds TransactionClassifier.clean_text: empty input maps to empty;
otherwise uppercase, replace every character outside word and whitespace
classes by a space, collapse whitespace runs by split and join, then apply
the anchored suffix substitutions in source order (trailing number token,
trailing store-number token, then each decoration token). The final strip
of the source is a no-op on the canonical collapsed form. -/
def clean_text (text : String) : String :=
  if text.data.isEmpty then ""
  else
    let up := mapStr Char.toUpper text
    let noPunct := mapStr (fun c => if isWordChar c || isSpaceChar c then c else ' ') up
    let ts0 := splitWs noPunct
    let ts1 := dropLastIf allDigits ts0
    let ts2 := dropLastIf storeNumberTok ts1
    let ts3 := suffixTokens.foldl (fun acc suf => dropLastIf (fun t => t = suf) acc) ts2
    joinSp ts3

/-! ### classification.py : the closed category enumeration -/

/-- Values of the ExpenseCategory enumeration, in source order. -/
def expenseCategoryValues : List String :=
  ["bills", "entertainment", "food", "groceries", "health", "insurance",
   "miscellaneous", "other", "personal care", "rent", "services", "shopping",
   "software", "subscriptions", "transportation", "unknown", "utilities"]

/-- Lowercasing as performed by str.lower on ASCII category names. -/
def lowerStr (s : String) : String :=
  mapStr Char.toLower s

/-- Membership test of the source, category.lower() in the enumeration values. -/
def validCategory (category : String) : Bool :=
  expenseCategoryValues.contains (lowerStr category)

/-! ### classification.py : training data preparation and training -/

/-- Training corpus as accepted by _prepare_training_data: either the flat
dictionary form or the list-of-records form. A list record lacking the
transaction or category key, or not being a dictionary, is represented as
none and is skipped by the source. -/
inductive TrainingCorpus
  | dict (entries : List (String × String))
  | list (entries : List (Option (String × String)))

/-- Well-formed description-category pairs of a corpus, in iteration order. -/
def corpusEntries : TrainingCorpus → List (String × String)
  | .dict es => es
  | .list es => es.filterMap id

/-- Decorated variants added for each training example, in source order. -/
def variations (description : String) : List String :=
  [description ++ " #", description ++ " STORE", "SQ *" ++ description,
   description ++ "*", description ++ " LLC", description ++ " INC"]

/-- Pairs contributed by one corpus entry: an entry with a category outside
the enumeration is skipped with a warning; a valid entry contributes its
cleaned description and the cleaned decorated variants, each labeled with
the lowercased category. -/
def prepareEntry (e : String × String) : List (String × String) :=
  if validCategory e.2 then
    (clean_text e.1, lowerStr e.2) ::
      (variations e.1).map (fun v => (clean_text v, lowerStr e.2))
  else []

/-- Embeds _prepare_training_data: parallel lists of cleaned descriptions and
lowercased categories accumulated over the corpus entries. -/
def prepare_training_data (corpus : TrainingCorpus) : List String × List String :=
  let pairs := ((corpusEntries corpus).map prepareEntry).flatten
  (pairs.map Prod.fst, pairs.map Prod.snd)

/-- Outcome of train_and_save. Fitting the vectorizer and the model and
pickling them is external; the saved artifacts are represented by the exact
training inputs they were fitted on, and success is the boolean the source
returns. -/
structure TrainResult where
  saved : Option (List String × List String)
  success : Bool
deriving DecidableEq

/-- Embeds train_and_save: prepare the data; when no training descriptions
were produced the raised ValueError is caught and the run returns failure
with nothing fitted or saved; otherwise the vectorizer and model are fitted
on the prepared lists and saved, and the run returns success. -/
def train_and_save (corpus : TrainingCorpus) : TrainResult :=
  let p := prepare_training_data corpus
  if p.1 = [] then { saved := none, success := false }
  else { saved := some p, success := true }

/-! ### classification.py : predict_category -/

/-- First entry of the override table whose pattern matches the raw
description, in table order. The regex search with the ignore-case flag is
abstracted by the rmatch parameter; a pattern whose compilation raises is
skipped by the source, which coincides with rmatch returning false on it. -/
def firstOverrideMatch (rmatch : String → String → Bool)
    (table : List (String × String)) (description : String) :
    Option (String × String) :=
  table.find? (fun pc => rmatch pc.1 description)

/-- Embeds TransactionClassifier.predict_category. The override table is the
training dictionary loaded from disk, passed here as table. The statistical
tier (vectorizer transform of the cleaned description, model prediction and
maximal posterior probability) is abstracted by mlPredict; none represents
the exception path of the source, which returns the sentinel with zero
confidence. An override match short-circuits with confidence one; otherwise
the model label is kept exactly when its confidence reaches the threshold,
else the sentinel is returned with the computed confidence. -/
def predict_category (rmatch : String → String → Bool)
    (mlPredict : String → Option (String × ℚ))
    (table : List (String × String)) (description : String)
    (confidence_threshold : ℚ) : String × ℚ :=
  match firstOverrideMatch rmatch table description with
  | some pc => (pc.2, 1)
  | none =>
    match mlPredict (clean_text description) with
    | some pr => if pr.2 ≥ confidence_threshold then pr else ("other", pr.2)
    | none => ("other", 0)

/-- Default value of the confidence_threshold parameter in the source. -/
def defaultConfidenceThreshold : ℚ := 6 / 10

/-- Embeds TransactionClassifier.categorize_transaction: predict_category at
the default threshold, keeping only the label. -/
def categorize_transaction (rmatch : String → String → Bool)
    (mlPredict : String → Option (String × ℚ))
    (table : List (String × String)) (description : String) : String :=
  (predict_category rmatch mlPredict table description defaultConfidenceThreshold).1

/-! ### classification.py : save_descriptions -/

/-- Lookup in the training dictionary, modeled as an association list in
insertion order. -/
def lookupA : List (String × String) → String → Option String
  | [], _ => none
  | kv :: tl, k => if kv.1 = k then some kv.2 else lookupA tl k

/-- Assignment to an existing key of the training dictionary: the value at
the key is replaced in place, the key sequence is unchanged. -/
def setAssoc : List (String × String) → String → String → List (String × String)
  | [], _, _ => []
  | kv :: tl, k, v => (if kv.1 = k then (k, v) else kv) :: setAssoc tl k v

/-- One correction record processed by save_descriptions: records that are
not dictionaries with both keys are skipped; a correction for a description
already present overwrites its category exactly when the supplied category
differs from the stored one and is not the unknown sentinel; a correction
for an absent description is skipped, never inserted. -/
def applyCorrection (existing : List (String × String))
    (c : Option (String × String)) : List (String × String) :=
  match c with
  | some kc =>
    match lookupA existing kc.1 with
    | some v =>
      if v ≠ kc.2 ∧ kc.2 ≠ "unknown" then setAssoc existing kc.1 kc.2 else existing
    | none => existing
  | none => existing

/-- Embeds TransactionClassifier.save_descriptions on the loaded training
dictionary: the correction records are processed in order against the
evolving dictionary, which is then written back. -/
def save_descriptions (existing : List (String × String))
    (descriptions_data : List (Option (String × String))) :
    List (String × String) :=
  descriptions_data.foldl applyCorrection existing

/-! ### capital_one.py : data model of parse_capitalone_transactions_text -/

/-- Transaction record appended for each matched transaction row. The amount
field holds the currency-formatted string stored by the source. -/
structure Transaction where
  transaction_date : String
  transaction_category : String
  post_date : String
  description : String
  amount : String
deriving DecidableEq

/-- Value of the transactions_count field of a holder entry. The source
initializes it to an empty list at the header line and later assigns the
integer row counter to it, so both shapes occur. -/
inductive TransCount
  | emptyList
  | count (n : ℤ)
deriving DecidableEq

/-- Python truthiness of a transactions_count value: the empty list and the
integer zero are falsy. -/
def TransCount.truthy : TransCount → Bool
  | .emptyList => false
  | .count n => n ≠ 0

/-- Per-holder entry of the accumulated data dictionary. Amounts are exact
decimals that are always whole multiples of a cent, represented as natural
numbers of cents. -/
structure StatementAccount where
  account : String
  verified_amounts : Bool
  transactions_count : TransCount
  transactions : List Transaction
  transactions_total_amount : ℕ
deriving DecidableEq

/-- Accumulated data dictionary threaded through the per-page invocations:
the holder entries in insertion order plus the current_queue key. The value
none covers both an absent key and the stored Python None. -/
structure AccData where
  holders : List (String × StatementAccount)
  current_queue : Option String
deriving DecidableEq

/-- Python truthiness of an optional string: absent, None and the empty
string are falsy. -/
def optStrTruthy : Option String → Bool
  | some s => !s.data.isEmpty
  | none => false

/-- Holder lookup in the accumulated data dictionary. -/
def getHolder (d : AccData) (n : String) : Option StatementAccount :=
  (d.holders.find? (fun kv => kv.1 = n)).map Prod.snd

/-- Holder assignment in the accumulated data dictionary: an existing key
keeps its position, a new key is appended, as Python dictionaries do. -/
def setHolder (d : AccData) (n : String) (a : StatementAccount) : AccData :=
  if (d.holders.find? (fun kv => kv.1 = n)).isSome then
    { d with holders := d.holders.map (fun kv => if kv.1 = n then (n, a) else kv) }
  else
    { d with holders := d.holders ++ [(n, a)] }

/-- Captured fraction digits of the transaction-row amount group, which the
regex constrains to one or two digits after the point. -/
inductive FracPart
  | one (d : Fin 10)
  | two (d : Fin 100)
deriving DecidableEq

/-- Cent value of the captured fraction digits. -/
def FracPart.cents : FracPart → ℕ
  | .one d => d.1 * 10
  | .two d => d.1

/-- Amount captured by the transaction-row pattern: the integer digits with
the currency symbol and thousands separators already accounted for, and the
fraction digits. -/
structure AmountTok where
  intPart : ℕ
  frac : FracPart
deriving DecidableEq

/-- Exact cent value obtained by the source from the captured amount after
stripping the currency symbol and the commas. -/
def AmountTok.cents (a : AmountTok) : ℕ := a.intPart * 100 + a.frac.cents

/-- Mathematical decimal value denoted by the captured amount. -/
def AmountTok.value (a : AmountTok) : ℚ :=
  a.intPart + (match a.frac with
    | .one d => (d.1 : ℚ) / 10
    | .two d => (d.1 : ℚ) / 100)

/-- Amount captured by the trailer pattern, which requires exactly two
fraction digits. -/
structure TrailAmt where
  units : ℕ
  frac : Fin 100
deriving DecidableEq

/-- Exact cent value of the trailer amount. -/
def TrailAmt.cents (t : TrailAmt) : ℕ := t.units * 100 + t.frac.1

/-! ### capital_one.py : currency formatting -/

/-- Inserts a comma after every three digits of a reversed digit sequence,
the grouping step of locale.currency for the en_US locale. -/
def groupRev : List Char → List Char
  | a :: b :: c :: d :: rest => a :: b :: c :: ',' :: groupRev (d :: rest)
  | ds => ds

/-- Thousands grouping of a digit string. -/
def groupThousands (s : String) : String :=
  String.mk ((groupRev s.data.reverse).reverse)

/-- Two-digit rendering of the cent part. -/
def padTwo (n : ℕ) : String :=
  if n < 10 then "0" ++ toString n else toString n

/-- Embeds locale.currency with grouping in the en_US locale, on the
nonnegative cent-exact decimals produced by this parser: dollar sign,
grouped integer part, point, two cent digits. Rounding to two places is
exact on these values. -/
def currency (cents : ℕ) : String :=
  "$" ++ groupThousands (toString (cents / 100)) ++ "." ++ padTwo (cents % 100)

/-! ### capital_one.py : lines and the parser -/

/-- Classification of one input line by the fixed pattern table, in the
order the source tests the patterns: the trailer match is tested first for
every line, then the header, continuation, column-header and row patterns
along the elif chain. Each constructor carries the captured groups of its
pattern; noise stands for a line matched by none of the patterns. The
trailer and header patterns are prefix-anchored and cannot both match one
line, since after the account digits one requires the literal Total
Transactions and the other the literal Transactions. -/
inductive Line
  | trailer (name acct : String) (declared : TrailAmt)
  | nameHeader (name acct : String)
  | contin
  | colHeader
  | row (trans_date post_date description : String) (amount : AmountTok)
  | noise
deriving DecidableEq

/-- Fatal conditions of the parse session. The source reports each and
terminates the process; uncaught dictionary and attribute errors likewise
abort the session. -/
inductive ParseError
  | structural
  | keyError (holder : String)
  | zeroTotal (holder : String)
  | mismatch (found declared : String)
  | attrError
deriving DecidableEq

/-- Per-invocation state of the parser loop: the accumulated data plus the
local variables of parse_capitalone_transactions_text. The calls field is a
ghost log recording each invocation of classification.categorize_transaction
with the description it received. -/
structure PageState where
  data : AccData
  current_name : Option String
  current_account : Option String
  have_continuation : Bool
  transaction_ct : ℤ
  processing_transactions : Bool
  calls : List String
deriving DecidableEq

/-- Group zero of the header match, the text the pattern consumed, which the
source stores as the account field. -/
def headerMatchText (nm acct : String) : String :=
  nm ++ " #" ++ acct ++ ": Transactions"

/-- Holder initialization of the header branch: a missing entry is created
with the matched text as account; then the four conditional initializations
of the source run. On a fresh entry they set verified false, an empty count
list, an empty transaction list and a zero total. On an existing entry the
verified, transactions and total conditionals rewrite a falsy value with an
equal falsy value, while a falsy transactions_count is rewritten to the
empty list. -/
def initHolder (d : AccData) (n acct0 : String) : AccData :=
  match getHolder d n with
  | none =>
    setHolder d n
      { account := acct0, verified_amounts := false,
        transactions_count := .emptyList, transactions := [],
        transactions_total_amount := 0 }
  | some a =>
    setHolder d n
      { a with
        transactions_count :=
          if a.transactions_count.truthy then a.transactions_count else .emptyList,
        transactions := if a.transactions.isEmpty then [] else a.transactions,
        transactions_total_amount :=
          if a.transactions_total_amount = 0 then 0 else a.transactions_total_amount }

/-- Embeds the line loop of parse_capitalone_transactions_text. Each
iteration first refreshes current_name from the queue when the queue is
truthy. A trailer line runs the reconciliation block: a pending continuation
is a structural failure; a missing holder entry raises; a zero accumulated
total is a failure; then the accumulated total and the declared total are
both rendered through the currency formatting and compared, a difference is
a reconciliation failure carrying both rendered values, and on equality the
holder is marked verified, the queue is cleared and the loop breaks,
returning the data. A header line initializes the holder, sets the queue and
disables row processing. A continuation line enables row processing and sets
the pending flag. A column-header line with a truthy current name enables
row processing, clears the pending flag and reads the holder entry, which
raises if the entry is missing. Any other line consumed while a name is
current and row processing is enabled clears the pending flag; if it is a
row match the counter is incremented and stored, the categorizer is invoked
once on the raw description, the transaction is appended and the amount is
added to the running total. -/
def parseLines (categorize : String → String) :
    List Line → PageState → Except ParseError (AccData × List String)
  | [], st => .ok (st.data, st.calls)
  | line :: rest, st0 =>
    let st := if optStrTruthy st0.data.current_queue
              then { st0 with current_name := st0.data.current_queue } else st0
    match line with
    | .trailer nm _acct declared =>
      if st.have_continuation then .error .structural
      else
        match getHolder st.data nm with
        | none => .error (.keyError nm)
        | some acc =>
          if acc.transactions_total_amount = 0 then .error (.zeroTotal nm)
          else
            let found := currency acc.transactions_total_amount
            let stated := currency declared.cents
            if found ≠ stated then .error (.mismatch found stated)
            else
              let d := setHolder st.data nm { acc with verified_amounts := true }
              .ok ({ d with current_queue := none }, st.calls)
    | .nameHeader nm acct =>
      let acct0 := headerMatchText nm acct
      let d1 := initHolder st.data nm acct0
      parseLines categorize rest
        { st with
          data := { d1 with current_queue := some nm },
          current_name := some nm,
          current_account := some acct0,
          processing_transactions := false }
    | .contin =>
      parseLines categorize rest
        { st with processing_transactions := true, have_continuation := true }
    | .colHeader =>
      if optStrTruthy st.current_name then
        match getHolder st.data (st.current_name.getD "") with
        | none => .error .attrError
        | some a =>
          let d := setHolder st.data (st.current_name.getD "")
            { a with transactions := if a.transactions.isEmpty then [] else a.transactions }
          parseLines categorize rest
            { st with data := d, processing_transactions := true,
                      have_continuation := false }
      else parseLines categorize rest st
    | .row td pd desc amt =>
      if optStrTruthy st.current_name && st.processing_transactions then
        let n := st.current_name.getD ""
        let ct := st.transaction_ct + 1
        match getHolder st.data n with
        | none => .error (.keyError n)
        | some a =>
          let category := categorize desc
          let amount_decimal := amt.cents
          let tx : Transaction :=
            { transaction_date := td, transaction_category := category,
              post_date := pd, description := desc,
              amount := currency amount_decimal }
          let a2 :=
            { a with
              transactions_count := .count ct,
              transactions := a.transactions ++ [tx],
              transactions_total_amount := a.transactions_total_amount + amount_decimal }
          parseLines categorize rest
            { st with
              data := setHolder st.data n a2,
              have_continuation := false,
              transaction_ct := ct,
              processing_transactions := true,
              calls := st.calls ++ [desc] }
      else parseLines categorize rest st
    | .noise =>
      if optStrTruthy st.current_name && st.processing_transactions then
        parseLines categorize rest { st with have_continuation := false }
      else parseLines categorize rest st

/-- Embeds one invocation of parse_capitalone_transactions_text: the local
variables start as in the source, with no current name, the pending flag
clear, the row counter at minus two and row processing disabled. -/
def parse_capitalone_transactions_text (categorize : String → String)
    (lines : List Line) (data : AccData) :
    Except ParseError (AccData × List String) :=
  parseLines categorize lines
    { data := data, current_name := none, current_account := none,
      have_continuation := false, transaction_ct := -2,
      processing_transactions := false, calls := [] }

/-- Embeds the per-page loop of analyze_capitalone_pdf: the page texts are
fed in page order, each invocation receiving the data returned by the
previous one. Text extraction and the final emptiness check are outside the
parsing core. -/
def analyze_pages (categorize : String → String)
    (pages : List (List Line)) (data : AccData) : Except ParseError AccData :=
  match pages with
  | [] => .ok data
  | p :: ps =>
    match parse_capitalone_transactions_text categorize p data with
    | .error e => .error e
    | .ok r => analyze_pages categorize ps r.1

/-- Empty accumulated data at the start of an analysis session. -/
def emptyAcc : AccData := { holders := [], current_queue := none }

/-! ### Theorems about the categorizer -/

/-- C7: for every description string for which some override-table pattern
matches (case-insensitive matching being part of the abstracted regex
search) against the raw, unmodified description, predict_category returns
the first matching pattern with category and confidence one, for every
statistical model and every threshold, so an override match always wins
over the model. -/
theorem C7_override_short_circuit (rmatch : String → String → Bool)
    (mlPredict : String → Option (String × ℚ))
    (table : List (String × String)) (description : String)
    (p cat : String) (threshold : ℚ)
    (h : firstOverrideMatch rmatch table description = some (p, cat)) :
    predict_category rmatch mlPredict table description threshold = (cat, 1) := by
  simp [predict_category, h]

/-- Witness for C7 at a concrete override table, description, model and
threshold: the table entry matches and wins with confidence one even though
the model reports a different label with high confidence. -/
theorem C7_witness :
    predict_category (fun pat s => pat == s)
      (fun _ => some ("food", 99 / 100))
      [("WALMART STORE 100", "shopping")] "WALMART STORE 100" (6 / 10) =
      ("shopping", 1) :=
  C7_override_short_circuit (fun pat s => pat == s)
    (fun _ => some ("food", 99 / 100))
    [("WALMART STORE 100", "shopping")] "WALMART STORE 100"
    "WALMART STORE 100" "shopping" (6 / 10) (by decide)

/-- C8: for every description with no override match, when the statistical
tier computes a label and a confidence, the label is returned exactly when
the confidence reaches the threshold, and otherwise the sentinel category
is returned together with the computed confidence, as an ordinary result
and not an error; the default value of the configurable threshold is 0.6. -/
theorem C8_confidence_threshold (rmatch : String → String → Bool)
    (mlPredict : String → Option (String × ℚ))
    (table : List (String × String)) (description : String)
    (pred : String) (conf threshold : ℚ)
    (hov : firstOverrideMatch rmatch table description = none)
    (hml : mlPredict (clean_text description) = some (pred, conf)) :
    predict_category rmatch mlPredict table description threshold =
      (if conf ≥ threshold then (pred, conf) else ("other", conf)) ∧
    defaultConfidenceThreshold = 6 / 10 := by
  refine ⟨?_, rfl⟩
  simp [predict_category, hov, hml]

/-- Witness for C8 at a concrete description whose model confidence one half
falls below the default threshold: the sentinel is returned with the
computed confidence. -/
theorem C8_witness :
    predict_category (fun _ _ => false) (fun _ => some ("food", 1 / 2))
      [] "STARBUCKS 1234 DOWNTOWN" (6 / 10) = ("other", 1 / 2) ∧
    defaultConfidenceThreshold = 6 / 10 := by
  have h := C8_confidence_threshold (fun _ _ => false)
    (fun _ => some ("food", 1 / 2)) [] "STARBUCKS 1234 DOWNTOWN"
    "food" (1 / 2) (6 / 10) rfl rfl
  refine ⟨?_, h.2⟩
  rw [h.1, if_neg (by norm_num)]

/-- A corpus entry contributes no training pairs exactly when its category is
outside the closed enumeration. -/
theorem prepareEntry_eq_nil_iff (e : String × String) :
    prepareEntry e = [] ↔ validCategory e.2 = false := by
  by_cases h : validCategory e.2 <;> simp [prepareEntry, h]

/-- The prepared description list is empty exactly when every corpus entry
has an invalid category. -/
theorem prepare_fst_eq_nil_iff (corpus : TrainingCorpus) :
    (prepare_training_data corpus).1 = [] ↔
      ∀ e ∈ corpusEntries corpus, validCategory e.2 = false := by
  simp only [prepare_training_data, List.map_eq_nil_iff,
    List.flatten_eq_nil_iff, List.mem_map]
  constructor
  · intro h e he
    exact (prepareEntry_eq_nil_iff e).mp (h (prepareEntry e) ⟨e, he, rfl⟩)
  · rintro h l ⟨e, he, rfl⟩
    exact (prepareEntry_eq_nil_iff e).mpr (h e he)

/-- C9 counterexample: a dictionary corpus holding one valid example and one
example whose category bogus is outside the closed enumeration does not
make the training run fail: the run succeeds and fits and saves artifacts,
refuting the claim that any invalid category aborts the entire run. -/
theorem C9_counterexample :
    validCategory "bogus" = false ∧
    (train_and_save (.dict [("AAA", "food"), ("BBB", "bogus")])).success = true ∧
    (train_and_save (.dict [("AAA", "food"), ("BBB", "bogus")])).saved ≠ none := by
  refine ⟨by decide, by decide, by decide⟩

/-- C9 as amended: an example whose category is outside the closed
enumeration is skipped with a warning rather than aborting the run; the
training run fails, fitting and saving nothing, exactly when no example
with a valid category remains. -/
theorem C9_invalid_categories_skipped (corpus : TrainingCorpus) :
    ((train_and_save corpus).success = true ↔
      ∃ e ∈ corpusEntries corpus, validCategory e.2 = true) ∧
    ((train_and_save corpus).saved = none ↔
      ∀ e ∈ corpusEntries corpus, validCategory e.2 = false) := by
  have key := prepare_fst_eq_nil_iff corpus
  have htr : train_and_save corpus =
      if (prepare_training_data corpus).1 = [] then
        { saved := none, success := false }
      else { saved := some (prepare_training_data corpus), success := true } := rfl
  by_cases h : (prepare_training_data corpus).1 = []
  · rw [htr, if_pos h]
    constructor
    · constructor
      · intro hsucc
        exact (Bool.false_ne_true hsucc).elim
      · rintro ⟨e, he, hv⟩
        rw [key.mp h e he] at hv
        exact (Bool.false_ne_true hv).elim
    · exact iff_of_true rfl (key.mp h)
  · rw [htr, if_neg h]
    constructor
    · refine iff_of_true rfl ?_
      by_contra hne
      push_neg at hne
      refine h (key.mpr (fun e he => ?_))
      cases hv : validCategory e.2
      · rfl
      · exact absurd hv (hne e he)
    · exact iff_of_false (by simp) (fun hc => h (key.mpr hc))

/-- Witness for C9 as amended, at a corpus whose only example is invalid:
training saves nothing. -/
theorem C9_witness :
    (train_and_save (TrainingCorpus.dict [("AAA", "bogus")])).saved = none :=
  (C9_invalid_categories_skipped (TrainingCorpus.dict [("AAA", "bogus")])).2.mpr
    (by decide)

/-! ### Theorems about save_descriptions -/

/-- Value replacement keeps the key sequence of the dictionary unchanged. -/
theorem setAssoc_map_fst (m : List (String × String)) (k v : String) :
    (setAssoc m k v).map Prod.fst = m.map Prod.fst := by
  induction m with
  | nil => rfl
  | cons kv tl ih =>
    by_cases h : kv.1 = k <;> simp [setAssoc, h, ih]

/-- Lookup at a different key is unaffected by a value replacement. -/
theorem lookupA_setAssoc_ne (m : List (String × String)) (k k2 v : String)
    (h : k2 ≠ k) : lookupA (setAssoc m k v) k2 = lookupA m k2 := by
  induction m with
  | nil => rfl
  | cons kv tl ih =>
    by_cases hk : kv.1 = k
    · have hkk2 : ¬(k = k2) := fun he => h he.symm
      have hkv2 : ¬(kv.1 = k2) := by rw [hk]; exact hkk2
      simp [setAssoc, lookupA, hk, hkk2, hkv2, ih]
    · by_cases hk2 : kv.1 = k2 <;> simp [setAssoc, lookupA, hk, hk2, h, ih]

/-- Lookup at the replaced key yields the new value when the key is present. -/
theorem lookupA_setAssoc_self (m : List (String × String)) (k v w : String)
    (h : lookupA m k = some w) : lookupA (setAssoc m k v) k = some v := by
  induction m with
  | nil => exact absurd h (by simp [lookupA])
  | cons kv tl ih =>
    by_cases hk : kv.1 = k
    · simp [setAssoc, lookupA, hk]
    · rw [lookupA, if_neg hk] at h
      simp only [setAssoc, lookupA, if_neg hk]
      exact ih h

/-- One correction step keeps the key sequence unchanged. -/
theorem applyCorrection_map_fst (ex : List (String × String))
    (c : Option (String × String)) :
    (applyCorrection ex c).map Prod.fst = ex.map Prod.fst := by
  match c with
  | none => rfl
  | some kc =>
    simp only [applyCorrection]
    cases hl : lookupA ex kc.1 with
    | none => rfl
    | some v =>
      dsimp only
      by_cases hc : v ≠ kc.2 ∧ kc.2 ≠ "unknown"
      · rw [if_pos hc]
        exact setAssoc_map_fst ex kc.1 kc.2
      · rw [if_neg hc]

/-- When one correction step changes the value stored at a key, the step was
a well-formed correction for that key, its category is not the unknown
sentinel, and the new stored value is that category. -/
theorem applyCorrection_changed (ex : List (String × String))
    (c : Option (String × String)) (k : String)
    (h : lookupA (applyCorrection ex c) k ≠ lookupA ex k) :
    ∃ cat, c = some (k, cat) ∧ cat ≠ "unknown" ∧
      lookupA (applyCorrection ex c) k = some cat := by
  match c with
  | none => exact absurd rfl h
  | some kc =>
    simp only [applyCorrection] at h ⊢
    cases hl : lookupA ex kc.1 with
    | none => rw [hl] at h; exact absurd rfl h
    | some v =>
      rw [hl] at h
      dsimp only at h ⊢
      by_cases hc : v ≠ kc.2 ∧ kc.2 ≠ "unknown"
      · rw [if_pos hc] at h ⊢
        by_cases hk : k = kc.1
        · subst hk
          exact ⟨kc.2, by simp, hc.2, lookupA_setAssoc_self ex kc.1 kc.2 v hl⟩
        · exact absurd (lookupA_setAssoc_ne ex kc.1 k kc.2 hk) h
      · rw [if_neg hc] at h
        exact absurd rfl h

/-- C10: save_descriptions never inserts or removes a description key: the
key sequence of the training dictionary is unchanged; and whenever the
stored category of a description changed, the corrections list held a
well-formed record for that description whose category was not the unknown
sentinel and became the stored value, the source guard having also required
it to differ from the previously stored value; in particular a correction
labeled unknown never overwrites an existing category. -/
theorem C10_save_descriptions_frame (existing : List (String × String))
    (ds : List (Option (String × String))) :
    (save_descriptions existing ds).map Prod.fst = existing.map Prod.fst ∧
    ∀ k, lookupA (save_descriptions existing ds) k ≠ lookupA existing k →
      ∃ cat, some (k, cat) ∈ ds ∧ cat ≠ "unknown" ∧
        lookupA (save_descriptions existing ds) k = some cat := by
  induction ds generalizing existing with
  | nil => exact ⟨rfl, fun k h => absurd rfl h⟩
  | cons d tl ih =>
    have step : save_descriptions existing (d :: tl) =
        save_descriptions (applyCorrection existing d) tl := rfl
    constructor
    · rw [step, (ih (applyCorrection existing d)).1,
        applyCorrection_map_fst existing d]
    · intro k h
      rw [step] at h ⊢
      by_cases hmid : lookupA (save_descriptions (applyCorrection existing d) tl) k =
          lookupA (applyCorrection existing d) k
      · have hch : lookupA (applyCorrection existing d) k ≠ lookupA existing k := by
          intro he; exact h (hmid.trans he)
        obtain ⟨cat, hd, hu, hv⟩ := applyCorrection_changed existing d k hch
        exact ⟨cat, by simp [hd], hu, hmid.trans hv⟩
      · obtain ⟨cat, hd, hu, hv⟩ := (ih (applyCorrection existing d)).2 k hmid
        exact ⟨cat, by simp [hd], hu, hv⟩

/-- Witness for C10 at a concrete dictionary and corrections list: the key
sequence is preserved under a skipped unknown correction, an applied
correction and a skipped insertion. -/
theorem C10_witness :
    (save_descriptions [("A", "food"), ("B", "rent")]
      [some ("A", "unknown"), some ("B", "food"), some ("C", "food")]).map Prod.fst =
      [("A", "food"), ("B", "rent")].map Prod.fst :=
  (C10_save_descriptions_frame [("A", "food"), ("B", "rent")]
    [some ("A", "unknown"), some ("B", "food"), some ("C", "food")]).1

/-! ### Theorems about the statement parser -/

/-- C1: at block close, for a trailer line whose holder entry exists, with
no continuation pending and a nonzero accumulated total, the parser renders
the accumulated running total and the declared trailer total through the
same currency formatting; when the rendered values differ the session fails
with a reconciliation error carrying both values, and when they agree the
holder entry is marked verified and the active-holder queue is cleared. -/
theorem C1_trailer_reconciliation (categorize : String → String)
    (nm acct : String) (declared : TrailAmt) (rest : List Line)
    (st : PageState) (acc : StatementAccount)
    (hcont : st.have_continuation = false)
    (hacc : getHolder st.data nm = some acc)
    (hnz : acc.transactions_total_amount ≠ 0) :
    parseLines categorize (Line.trailer nm acct declared :: rest) st =
      if currency acc.transactions_total_amount ≠ currency declared.cents then
        .error (.mismatch (currency acc.transactions_total_amount)
          (currency declared.cents))
      else
        .ok ({ setHolder st.data nm { acc with verified_amounts := true } with
                current_queue := none }, st.calls) := by
  obtain ⟨⟨holders, queue⟩, cn, ca, hc, ct, pt, cl⟩ := st
  dsimp only at hcont hacc hnz ⊢
  subst hcont
  by_cases hq : optStrTruthy queue <;>
    simp [parseLines, hq, hacc, hnz]

/-- C4: a trailer line closing a block whose holder entry has an accumulated
total of exactly zero makes the session fail with the zero-total
reconciliation error, so the holder is never marked verified; in particular
a block with no matched transaction rows followed by its trailer fails. -/
theorem C4_zero_total_never_verifies (categorize : String → String)
    (nm acct : String) (declared : TrailAmt) (rest : List Line)
    (st : PageState) (acc : StatementAccount)
    (hcont : st.have_continuation = false)
    (hacc : getHolder st.data nm = some acc)
    (hz : acc.transactions_total_amount = 0) :
    parseLines categorize (Line.trailer nm acct declared :: rest) st =
      .error (.zeroTotal nm) := by
  obtain ⟨⟨holders, queue⟩, cn, ca, hc, ct, pt, cl⟩ := st
  dsimp only at hcont hacc hz ⊢
  subst hcont
  by_cases hq : optStrTruthy queue <;>
    simp [parseLines, hq, hacc, hz]

/-- C2: a line matching the transaction-row pattern, consumed while a holder
is active and row processing is enabled and the holder entry exists,
appends exactly one transaction carrying the extracted transaction date,
post date, description and currency-formatted amount; the captured amount
denotes an exact decimal with at most two fraction digits, equal to its
cent value divided by one hundred; the categorizer is invoked exactly once
on the raw description and its label is stored; the cent amount is added to
the running total of that holder; and the row counter is incremented, its
new value being stored in the holder entry. -/
theorem C2_transaction_row (categorize : String → String)
    (td pd desc : String) (amt : AmountTok) (rest : List Line)
    (st : PageState) (n : String) (acc : StatementAccount)
    (hn : (if optStrTruthy st.data.current_queue then st.data.current_queue
           else st.current_name) = some n)
    (hne : n ≠ "")
    (hproc : st.processing_transactions = true)
    (hacc : getHolder st.data n = some acc) :
    amt.value * 100 = (amt.cents : ℚ) ∧
    parseLines categorize (Line.row td pd desc amt :: rest) st =
      parseLines categorize rest
        { st with
          data := setHolder st.data n
            { acc with
              transactions_count := .count (st.transaction_ct + 1),
              transactions := acc.transactions ++
                [{ transaction_date := td,
                   transaction_category := categorize desc,
                   post_date := pd, description := desc,
                   amount := currency amt.cents }],
              transactions_total_amount :=
                acc.transactions_total_amount + amt.cents },
          current_name := some n,
          have_continuation := false,
          transaction_ct := st.transaction_ct + 1,
          processing_transactions := true,
          calls := st.calls ++ [desc] } := by
  constructor
  · obtain ⟨i, f⟩ := amt
    cases f with
    | one d =>
      simp only [AmountTok.value, AmountTok.cents, FracPart.cents]
      push_cast
      ring
    | two d =>
      simp only [AmountTok.value, AmountTok.cents, FracPart.cents]
      push_cast
      ring
  · have hdat : n.data ≠ [] := by
      intro hd
      exact hne (by cases n with | mk l => cases hd; rfl)
    have hsn : optStrTruthy (some n) = true := by
      simp [optStrTruthy, hdat]
    obtain ⟨⟨holders, queue⟩, cn, ca, hc, ct, pt, cl⟩ := st
    dsimp only at hn hproc hacc ⊢
    subst hproc
    by_cases hq : optStrTruthy queue
    · rw [if_pos hq] at hn
      subst hn
      simp [parseLines, hq, hacc, hsn]
    · rw [if_neg hq] at hn
      subst hn
      simp [parseLines, hq, hacc, hsn]

/-- Witness for C1 at the concrete mismatch scenario of the specification:
a holder with accumulated total 45.67 closed by a trailer declaring 50.00
fails with the reconciliation error reporting both rendered values. -/
theorem C1_witness :
    parseLines (fun _ => "shopping")
      [Line.trailer "JANE DOE" "1234" { units := 50, frac := 0 }]
      { data :=
          { holders :=
              [("JANE DOE",
                { account := "JANE DOE #1234: Transactions",
                  verified_amounts := false,
                  transactions_count := .count (-1),
                  transactions :=
                    [{ transaction_date := "Jan 3",
                       transaction_category := "shopping",
                       post_date := "Jan 5",
                       description := "WALMART STORE 100",
                       amount := "$45.67" }],
                  transactions_total_amount := 4567 })],
            current_queue := some "JANE DOE" },
        current_name := some "JANE DOE", current_account := none,
        have_continuation := false, transaction_ct := -1,
        processing_transactions := true, calls := ["WALMART STORE 100"] } =
      .error (.mismatch "$45.67" "$50.00") := by
  have h := C1_trailer_reconciliation (fun _ => "shopping") "JANE DOE" "1234"
    { units := 50, frac := 0 } []
    { data :=
        { holders :=
            [("JANE DOE",
              { account := "JANE DOE #1234: Transactions",
                verified_amounts := false,
                transactions_count := .count (-1),
                transactions :=
                  [{ transaction_date := "Jan 3",
                     transaction_category := "shopping",
                     post_date := "Jan 5",
                     description := "WALMART STORE 100",
                     amount := "$45.67" }],
                transactions_total_amount := 4567 })],
          current_queue := some "JANE DOE" },
      current_name := some "JANE DOE", current_account := none,
      have_continuation := false, transaction_ct := -1,
      processing_transactions := true, calls := ["WALMART STORE 100"] }
    { account := "JANE DOE #1234: Transactions",
      verified_amounts := false,
      transactions_count := .count (-1),
      transactions :=
        [{ transaction_date := "Jan 3",
           transaction_category := "shopping",
           post_date := "Jan 5",
           description := "WALMART STORE 100",
           amount := "$45.67" }],
      transactions_total_amount := 4567 }
    rfl rfl (by decide)
  rw [h, if_pos (by decide)]
  rfl

/-- Witness for C2 at a concrete state holding one fresh holder: the row
line appends the one transaction, stores the categorizer label, adds 4567
cents to the total, stores the incremented counter and logs exactly one
categorizer invocation on the raw description. -/
theorem C2_witness :
    parseLines (fun _ => "shopping")
      [Line.row "Jan 3" "Jan 5" "WALMART STORE 100"
        { intPart := 45, frac := .two 67 }]
      { data :=
          { holders :=
              [("JANE DOE",
                { account := "JANE DOE #1234: Transactions",
                  verified_amounts := false,
                  transactions_count := .emptyList,
                  transactions := [],
                  transactions_total_amount := 0 })],
            current_queue := some "JANE DOE" },
        current_name := none, current_account := none,
        have_continuation := false, transaction_ct := -2,
        processing_transactions := true, calls := [] } =
      .ok
        ({ holders :=
            [("JANE DOE",
              { account := "JANE DOE #1234: Transactions",
                verified_amounts := false,
                transactions_count := .count (-1),
                transactions :=
                  [{ transaction_date := "Jan 3",
                     transaction_category := "shopping",
                     post_date := "Jan 5",
                     description := "WALMART STORE 100",
                     amount := "$45.67" }],
                transactions_total_amount := 4567 })],
           current_queue := some "JANE DOE" },
         ["WALMART STORE 100"]) := by
  have h := (C2_transaction_row (fun _ => "shopping") "Jan 3" "Jan 5"
    "WALMART STORE 100" { intPart := 45, frac := .two 67 } []
    { data :=
        { holders :=
            [("JANE DOE",
              { account := "JANE DOE #1234: Transactions",
                verified_amounts := false,
                transactions_count := .emptyList,
                transactions := [],
                transactions_total_amount := 0 })],
          current_queue := some "JANE DOE" },
      current_name := none, current_account := none,
      have_continuation := false, transaction_ct := -2,
      processing_transactions := true, calls := [] }
    "JANE DOE"
    { account := "JANE DOE #1234: Transactions",
      verified_amounts := false,
      transactions_count := .emptyList,
      transactions := [],
      transactions_total_amount := 0 }
    rfl (by decide) rfl rfl).2
  rw [h]
  rfl

/-- Witness for C4 on the concrete zero-row page of the claim: a header and
column header immediately followed by the trailer fail with the zero-total
error, so the block never verifies. -/
theorem C4_witness :
    parse_capitalone_transactions_text (fun _ => "shopping")
      [Line.nameHeader "JANE DOE" "1234", Line.colHeader,
       Line.trailer "JANE DOE" "1234" { units := 45, frac := 67 }] emptyAcc =
      .error (.zeroTotal "JANE DOE") := by
  have e : parse_capitalone_transactions_text (fun _ => "shopping")
      [Line.nameHeader "JANE DOE" "1234", Line.colHeader,
       Line.trailer "JANE DOE" "1234" { units := 45, frac := 67 }] emptyAcc =
      parseLines (fun _ => "shopping")
        [Line.trailer "JANE DOE" "1234" { units := 45, frac := 67 }]
        { data :=
            { holders :=
                [("JANE DOE",
                  { account := "JANE DOE #1234: Transactions",
                    verified_amounts := false,
                    transactions_count := .emptyList,
                    transactions := [],
                    transactions_total_amount := 0 })],
              current_queue := some "JANE DOE" },
          current_name := some "JANE DOE",
          current_account := some "JANE DOE #1234: Transactions",
          have_continuation := false, transaction_ct := -2,
          processing_transactions := true, calls := [] } := rfl
  rw [e]
  exact C4_zero_total_never_verifies (fun _ => "shopping") "JANE DOE" "1234"
    { units := 45, frac := 67 } []
    { data :=
        { holders :=
            [("JANE DOE",
              { account := "JANE DOE #1234: Transactions",
                verified_amounts := false,
                transactions_count := .emptyList,
                transactions := [],
                transactions_total_amount := 0 })],
          current_queue := some "JANE DOE" },
      current_name := some "JANE DOE",
      current_account := some "JANE DOE #1234: Transactions",
      have_continuation := false, transaction_ct := -2,
      processing_transactions := true, calls := [] }
    { account := "JANE DOE #1234: Transactions",
      verified_amounts := false,
      transactions_count := .emptyList,
      transactions := [],
      transactions_total_amount := 0 }
    rfl rfl rfl

/-- C5 counterexample: the continuation-pending flag does not persist across
per-page invocations. A first page whose block ends with a continuation
marker, followed by a second page holding only the matching trailer, closes
the block normally with the holder verified, instead of failing with the
structural error the claim requires for a trailer arriving in a later
page-text input than the marker. -/
theorem C5_counterexample :
    (analyze_pages (fun _ => "shopping")
      [[Line.nameHeader "JANE DOE" "1234", Line.colHeader,
        Line.row "Jan 3" "Jan 5" "WALMART" { intPart := 1, frac := .two 0 },
        Line.contin],
       [Line.trailer "JANE DOE" "1234" { units := 1, frac := 0 }]] emptyAcc).map
      (fun d => (getHolder d "JANE DOE").map (fun a => a.verified_amounts)) =
      .ok (some true) := by
  rfl

/-- C5 as amended: the continuation-pending flag is local to one parser
invocation, reset at the start of each page rather than carried by the
Accumulated Document; within a single invocation, a trailer line consumed
in any state whose flag is still set fails with the structural error,
whatever lines came between the marker that set the flag and the trailer
and whatever input remains. -/
theorem C5_close_with_flag_set_fails (categorize : String → String)
    (nm acct : String) (declared : TrailAmt) (rest : List Line)
    (st : PageState) (h : st.have_continuation = true) :
    parseLines categorize (Line.trailer nm acct declared :: rest) st =
      .error .structural := by
  obtain ⟨⟨holders, queue⟩, cn, ca, hc, ct, pt, cl⟩ := st
  dsimp only at h
  subst h
  by_cases hq : optStrTruthy queue <;> simp [parseLines, hq]

/-- Witness for C5 as amended, on a page whose continuation marker is
followed by a second holder header and only then by the trailer: the header
branch leaves the pending flag set, so the close still fails structurally
even though the trailer is not adjacent to the marker. -/
theorem C5_witness :
    parseLines (fun _ => "shopping")
      [Line.contin, Line.nameHeader "BBBB" "2222",
       Line.trailer "BBBB" "2222" { units := 1, frac := 0 }]
      { data := emptyAcc, current_name := none, current_account := none,
        have_continuation := false, transaction_ct := -2,
        processing_transactions := false, calls := [] } =
      .error .structural := by
  have e : parseLines (fun _ => "shopping")
      [Line.contin, Line.nameHeader "BBBB" "2222",
       Line.trailer "BBBB" "2222" { units := 1, frac := 0 }]
      { data := emptyAcc, current_name := none, current_account := none,
        have_continuation := false, transaction_ct := -2,
        processing_transactions := false, calls := [] } =
      parseLines (fun _ => "shopping")
        [Line.trailer "BBBB" "2222" { units := 1, frac := 0 }]
        { data :=
            { holders :=
                [("BBBB",
                  { account := "BBBB #2222: Transactions",
                    verified_amounts := false,
                    transactions_count := .emptyList,
                    transactions := [],
                    transactions_total_amount := 0 })],
              current_queue := some "BBBB" },
          current_name := some "BBBB",
          current_account := some "BBBB #2222: Transactions",
          have_continuation := true, transaction_ct := -2,
          processing_transactions := false, calls := [] } := rfl
  rw [e]
  exact C5_close_with_flag_set_fails (fun _ => "shopping") "BBBB" "2222"
    { units := 1, frac := 0 } []
    { data :=
        { holders :=
            [("BBBB",
              { account := "BBBB #2222: Transactions",
                verified_amounts := false,
                transactions_count := .emptyList,
                transactions := [],
                transactions_total_amount := 0 })],
          current_queue := some "BBBB" },
      current_name := some "BBBB",
      current_account := some "BBBB #2222: Transactions",
      have_continuation := true, transaction_ct := -2,
      processing_transactions := false, calls := [] }
    rfl

/-- C6 counterexample: a page placing a second holder header, column header
and row after the first holder trailer line produces no entry for the
second holder: the parser stops consuming the page at the successful close,
refuting the claim that it continues and creates the second account. -/
theorem C6_counterexample :
    (parse_capitalone_transactions_text (fun _ => "shopping")
      [Line.nameHeader "AAAA" "1111", Line.colHeader,
       Line.row "Jan 3" "Jan 5" "WALMART" { intPart := 1, frac := .two 0 },
       Line.trailer "AAAA" "1111" { units := 1, frac := 0 },
       Line.nameHeader "BBBB" "2222", Line.colHeader,
       Line.row "Jan 6" "Jan 7" "TARGET" { intPart := 1, frac := .two 0 }]
      emptyAcc).map
      (fun r => (getHolder r.1 "BBBB",
        (getHolder r.1 "AAAA").map (fun a => a.verified_amounts))) =
      .ok (none, some true) := by
  rfl

/-- C6 as amended: once a trailer line is consumed the invocation returns
without consuming any remaining line of the page, whatever those lines are:
the result of the invocation on a trailer followed by anything equals its
result on the trailer alone; a second holder header on the same page after
the close is therefore ignored. -/
theorem C6_break_after_close (categorize : String → String)
    (nm acct : String) (declared : TrailAmt) (rest : List Line)
    (st : PageState) :
    parseLines categorize (Line.trailer nm acct declared :: rest) st =
      parseLines categorize [Line.trailer nm acct declared] st := by
  rfl

/-- C3: the claim requires a block split across two pages behind a
continuation marker to merge into a holder entry identical to the
single-page parse, row counter included. The code keeps the row counter in
a page-local variable initialized to minus two, so the two runs agree on
the transactions, the running total, the account and the verified flag but
store counter values minus one and zero respectively, diverging from the
claim on the counter while confirming the rest; the counter values also
show the stored counter is not the number of rows, supporting the reading
that the spec is the intent and the counter handling a slip. -/
theorem C3_split_block_merge_divergence :
    (analyze_pages (fun _ => "shopping")
      [[Line.nameHeader "JANE DOE" "1234", Line.colHeader,
        Line.row "Jan 3" "Jan 5" "WALMART STORE 100"
          { intPart := 45, frac := .two 67 }],
       [Line.contin,
        Line.row "Jan 6" "Jan 7" "TARGET" { intPart := 10, frac := .two 0 }]]
      emptyAcc).map (fun d => getHolder d "JANE DOE") =
      .ok (some
        { account := "JANE DOE #1234: Transactions",
          verified_amounts := false,
          transactions_count := .count (-1),
          transactions :=
            [{ transaction_date := "Jan 3", transaction_category := "shopping",
               post_date := "Jan 5", description := "WALMART STORE 100",
               amount := "$45.67" },
             { transaction_date := "Jan 6", transaction_category := "shopping",
               post_date := "Jan 7", description := "TARGET",
               amount := "$10.00" }],
          transactions_total_amount := 5567 }) ∧
    (analyze_pages (fun _ => "shopping")
      [[Line.nameHeader "JANE DOE" "1234", Line.colHeader,
        Line.row "Jan 3" "Jan 5" "WALMART STORE 100"
          { intPart := 45, frac := .two 67 },
        Line.row "Jan 6" "Jan 7" "TARGET" { intPart := 10, frac := .two 0 }]]
      emptyAcc).map (fun d => getHolder d "JANE DOE") =
      .ok (some
        { account := "JANE DOE #1234: Transactions",
          verified_amounts := false,
          transactions_count := .count 0,
          transactions :=
            [{ transaction_date := "Jan 3", transaction_category := "shopping",
               post_date := "Jan 5", description := "WALMART STORE 100",
               amount := "$45.67" },
             { transaction_date := "Jan 6", transaction_category := "shopping",
               post_date := "Jan 7", description := "TARGET",
               amount := "$10.00" }],
          transactions_total_amount := 5567 }) :=
  ⟨rfl, rfl⟩

end FinanceBuddy
